import Mathlib

/-!
Shallow embedding of the HRMS-Lite backend (`backend/app/main.py`).

The program is a FastAPI + SQLAlchemy CRUD service over two tables,
`employees` and `attendance`.  The relational store is modelled as a
`Store` holding the two tables as lists of rows together with the
auto-increment counters of the two integer primary keys.  Each route
handler becomes a Lean function from the store (and the parsed request)
to `Except ApiError (result × Store)`: the Python handlers perform all
reads before any write and raise `HTTPException` before touching the
session, so an error leaves the store unchanged, which the `Except`
shape makes explicit (`afterStore` recovers the post-request store).

Timestamps (`created_at`) and calendar dates are modelled as `Nat`
(the embedding only ever compares them for equality and order).
-/

/-- The `attendance_status` enum of the source: `Enum("Present", "Absent")`. -/
inductive AttStatus where
  | present
  | absent
deriving Repr, DecidableEq

/-- A row of the `employees` table (class `Employee` in the source):
`id` integer PK, `employee_id` unique string, `full_name`, `email` unique,
`department` nullable, `created_at` server-assigned timestamp. -/
structure EmployeeRow where
  id : Nat
  employee_id : String
  full_name : String
  email : String
  department : Option String
  created_at : Nat
deriving Repr, DecidableEq

/-- A row of the `attendance` table (class `Attendance` in the source):
`id` integer PK, `employee_id` FK to `employees.id`, `date`, `status`. -/
structure AttendanceRow where
  id : Nat
  employee_id : Nat
  date : Nat
  status : AttStatus
deriving Repr, DecidableEq

/-- The relational store: the two tables (in insertion order) plus the
auto-increment sequences backing the two integer primary keys. -/
structure Store where
  employees : List EmployeeRow
  attendance : List AttendanceRow
  nextEmployeeId : Nat := 1
  nextAttendanceId : Nat := 1
deriving Repr, DecidableEq

/-- The typed errors the handlers raise via `HTTPException`:
`duplicateKey` is raised with `HTTP_400_BAD_REQUEST`, `notFound` with
`HTTP_404_NOT_FOUND`; the carried string is the `detail` message. -/
inductive ApiError where
  | duplicateKey (detail : String)
  | notFound (detail : String)
deriving Repr, DecidableEq

/-- The HTTP status code attached to each error in the source. -/
def ApiError.statusCode : ApiError → Nat
  | .duplicateKey _ => 400
  | .notFound _ => 404

/-- The store after a request: on success the handler committed the new
store; a raised `HTTPException` aborts the request before any write, so
the store is the one the request started from. -/
def afterStore {α : Type} (s : Store) (r : Except ApiError (α × Store)) : Store :=
  match r with
  | .ok (_, s') => s'
  | .error _ => s

/-- SQL `LIKE` matching over character lists, case-insensitive (the source
uses SQLAlchemy `ilike`): `%` matches any sequence of characters, `_`
matches exactly one character, any other pattern character matches itself
up to case. -/
def likeChars : List Char → List Char → Bool
  | [], s => s.isEmpty
  | c :: p, s =>
    if c = '%' then
      likeChars p s || (match s with | [] => false | _ :: s' => likeChars (c :: p) s')
    else
      match s with
      | [] => false
      | d :: s' => (if c = '_' then true else c.toLower == d.toLower) && likeChars p s'
termination_by p s => p.length + s.length

/-- Case-insensitive SQL `LIKE` on strings (SQLAlchemy's `ilike`). -/
def ilikeMatch (pattern s : String) : Bool :=
  likeChars pattern.data s.data

/-- `leadMatch n h`: `n` occurs at the very start of `h`, comparing
characters case-insensitively. -/
def leadMatch : List Char → List Char → Bool
  | [], _ => true
  | _ :: _, [] => false
  | a :: n, b :: h => a.toLower == b.toLower && leadMatch n h

/-- `subMatch n h`: `n` occurs contiguously somewhere inside `h`,
comparing characters case-insensitively. -/
def subMatch : List Char → List Char → Bool
  | n, [] => n.isEmpty
  | n, c :: h => leadMatch n (c :: h) || subMatch n h

/-- Case-insensitive substring test — the relation the spec asserts for the
`full_name` filter ("substring case-insensitive").  Used only to state the
spec's wording, never as a model of the source. -/
def substrCI (needle hay : String) : Bool :=
  subMatch needle.data hay.data

/-- The conditional query refinement used by the list handlers: each
`if x is not None: query = query.filter(...)` statement of the source. -/
def optFilter {α β : Type} (l : List α) (o : Option β) (f : β → α → Bool) : List α :=
  match o with
  | none => l
  | some v => l.filter (f v)

-- ---------------------------------------------------------------------------
-- Request payloads (the pydantic schemas)
-- ---------------------------------------------------------------------------

/-- The `EmployeeCreate` pydantic schema: all four business fields of an
employee; `department` is optional (default `None`). -/
structure EmployeeCreate where
  employee_id : String
  full_name : String
  email : String
  department : Option String := none
deriving Repr, DecidableEq

/-- Field-shape validation performed by pydantic on `EmployeeCreate`
(`EmployeeBase`): `employee_id` 1–50 chars, `full_name` 1–255 chars,
`department` at most 100 chars.  (`email` is additionally checked for
email syntax by `EmailStr`; no claim depends on that check, so it is not
modelled.) -/
def EmployeeCreate.valid (e : EmployeeCreate) : Bool :=
  decide (1 ≤ e.employee_id.length) && decide (e.employee_id.length ≤ 50) &&
  decide (1 ≤ e.full_name.length) && decide (e.full_name.length ≤ 255) &&
  (match e.department with | none => true | some d => decide (d.length ≤ 100))

/-- The `EmployeeUpdate` pydantic schema: every field optional; a field
that is absent from (or null in) the request body parses to `none`. -/
structure EmployeeUpdate where
  full_name : Option String := none
  email : Option String := none
  department : Option String := none
deriving Repr, DecidableEq

/-- Field-shape validation performed by pydantic on `EmployeeUpdate`:
`full_name` at most 255 chars (the source declares no `min_length` here,
unlike `EmployeeBase`), `department` at most 100 chars. -/
def EmployeeUpdate.valid (u : EmployeeUpdate) : Bool :=
  (match u.full_name with | none => true | some v => decide (v.length ≤ 255)) &&
  (match u.department with | none => true | some d => decide (d.length ≤ 100))

/-- The `AttendanceCreate` pydantic schema. -/
structure AttendanceCreate where
  employee_id : Nat
  date : Nat
  status : AttStatus
deriving Repr, DecidableEq

-- ---------------------------------------------------------------------------
-- Employee route handlers
-- ---------------------------------------------------------------------------

/-- The row `create_employee` builds from the request: the store assigns
`id` from its sequence and `created_at` from the clock (passed as `now`). -/
def newEmployeeRow (s : Store) (e_in : EmployeeCreate) (now : Nat) : EmployeeRow :=
  { id := s.nextEmployeeId
    employee_id := e_in.employee_id
    full_name := e_in.full_name
    email := e_in.email
    department := e_in.department
    created_at := now }

/-- `POST /api/employees` (`create_employee`): reject a duplicate
`employee_id`, then a duplicate `email`, each with HTTP 400; otherwise
insert the new row (the store assigns `id` from its sequence and
`created_at` from the clock, passed here as `now`) and return it with
HTTP 201. -/
def create_employee (s : Store) (e_in : EmployeeCreate) (now : Nat) :
    Except ApiError (EmployeeRow × Store) :=
  if (s.employees.find? (fun e => e.employee_id == e_in.employee_id)).isSome then
    .error (.duplicateKey "Employee ID already exists")
  else if (s.employees.find? (fun e => e.email == e_in.email)).isSome then
    .error (.duplicateKey "Email is already in use")
  else
    let emp : EmployeeRow := newEmployeeRow s e_in now
    .ok (emp, { s with employees := s.employees ++ [emp],
                       nextEmployeeId := s.nextEmployeeId + 1 })

/-- The email-uniqueness guard of `update_employee`:
`if employee_in.email and employee_in.email != employee.email:` followed by
a lookup of the new email.  Python truthiness of the string is modelled by
`!v.isEmpty`. -/
def emailConflict (s : Store) (employee : EmployeeRow) (u : EmployeeUpdate) : Bool :=
  match u.email with
  | none => false
  | some v => !v.isEmpty && v != employee.email &&
      (s.employees.find? (fun e => e.email == v)).isSome

/-- The field assignments of `update_employee`: each of the three
`if employee_in.X is not None: employee.X = employee_in.X` statements. -/
def mergeUpdate (employee : EmployeeRow) (u : EmployeeUpdate) : EmployeeRow :=
  { employee with
    full_name := match u.full_name with | none => employee.full_name | some v => v
    email := match u.email with | none => employee.email | some v => v
    department := match u.department with
      | none => employee.department
      | some d => some d }

/-- `PUT /api/employees/{employee_id}` (`update_employee`): look the row up
by primary key (404 if absent); if a differing email is supplied and already
in use, 400; otherwise overwrite exactly the supplied (non-`None`) fields
and commit. -/
def update_employee (s : Store) (eid : Nat) (u : EmployeeUpdate) :
    Except ApiError (EmployeeRow × Store) :=
  match s.employees.find? (fun e => e.id == eid) with
  | none => .error (.notFound "Employee not found")
  | some employee =>
    if emailConflict s employee u then
      .error (.duplicateKey "Email is already in use")
    else
      let employee' : EmployeeRow := mergeUpdate employee u
      .ok (employee',
        { s with employees := s.employees.map (fun e => if e.id == eid then employee' else e) })

/-- Query parameters of `GET /api/employees` with their FastAPI defaults
(`skip: int = 0`, `limit: int = 100`, all filters `None`). -/
structure ListEmployeesParams where
  skip : Nat := 0
  limit : Nat := 100
  id : Option Nat := none
  employee_id : Option String := none
  full_name : Option String := none
  email : Option String := none
  department : Option String := none
deriving Repr, DecidableEq

/-- Ordering used by `list_employees`: `Employee.created_at.desc()`. -/
def createdDesc (a b : EmployeeRow) : Prop := b.created_at ≤ a.created_at

instance : DecidableRel createdDesc := fun a b => Nat.decLe b.created_at a.created_at

instance : IsTotal EmployeeRow createdDesc :=
  ⟨fun a b => Nat.le_total b.created_at a.created_at⟩

instance : IsTrans EmployeeRow createdDesc :=
  ⟨fun _ _ _ h1 h2 => Nat.le_trans h2 h1⟩

/-- `GET /api/employees` (`list_employees`): starting from the whole table,
apply each supplied filter in turn (`id`, `employee_id` exact; `full_name`
via `ilike(f"%{full_name}%")`; `email`, `department` exact), order by
`created_at` descending, then `offset(skip).limit(limit)`. -/
def list_employees (s : Store) (p : ListEmployeesParams) : List EmployeeRow :=
  let q := s.employees
  let q := optFilter q p.id (fun v e => e.id == v)
  let q := optFilter q p.employee_id (fun v e => e.employee_id == v)
  let q := optFilter q p.full_name (fun v e => ilikeMatch ("%" ++ v ++ "%") e.full_name)
  let q := optFilter q p.email (fun v e => e.email == v)
  let q := optFilter q p.department (fun v e => e.department == some v)
  (((q.insertionSort createdDesc).drop p.skip).take p.limit)

/-- `DELETE /api/employees/{employee_id}` (`delete_employee`): look up by
primary key (404 if absent), then delete the row; the relationship cascade
(`all, delete-orphan` / `ON DELETE CASCADE`) removes every attendance row
referencing it.  Success returns no body. -/
def delete_employee (s : Store) (eid : Nat) : Except ApiError (Unit × Store) :=
  match s.employees.find? (fun e => e.id == eid) with
  | none => .error (.notFound "Employee not found")
  | some _ =>
    .ok ((), { s with
      employees := s.employees.filter (fun e => e.id != eid),
      attendance := s.attendance.filter (fun a => a.employee_id != eid) })

/-- HTTP status of a successful `DELETE /api/employees/{id}`:
`status_code=status.HTTP_204_NO_CONTENT` in the route decorator. -/
def delete_employee_success_status : Nat := 204

-- ---------------------------------------------------------------------------
-- Attendance route handlers
-- ---------------------------------------------------------------------------

/-- The row `create_attendance` builds from the request: the store assigns
`id` from its sequence. -/
def newAttendanceRow (s : Store) (a_in : AttendanceCreate) : AttendanceRow :=
  { id := s.nextAttendanceId
    employee_id := a_in.employee_id
    date := a_in.date
    status := a_in.status }

/-- `POST /api/attendance` (`create_attendance`): 404 if the referenced
employee does not exist, 400 if an attendance row for the same
`(employee_id, date)` pair already exists, otherwise insert and return the
new row with HTTP 201. -/
def create_attendance (s : Store) (a_in : AttendanceCreate) :
    Except ApiError (AttendanceRow × Store) :=
  if (s.employees.find? (fun e => e.id == a_in.employee_id)).isSome then
    if (s.attendance.find?
        (fun a => a.employee_id == a_in.employee_id && a.date == a_in.date)).isSome then
      .error (.duplicateKey "Attendance already recorded for this employee and date")
    else
      let att : AttendanceRow := newAttendanceRow s a_in
      .ok (att, { s with attendance := s.attendance ++ [att],
                         nextAttendanceId := s.nextAttendanceId + 1 })
  else
    .error (.notFound "Employee not found")

/-- Query parameters of `GET /api/attendance`, with the exact names the
FastAPI signature declares: `employee_id`, `date_value`, `status`. -/
structure ListAttendanceParams where
  employee_id : Option Nat := none
  date_value : Option Nat := none
  status : Option AttStatus := none
deriving Repr, DecidableEq

/-- The query-parameter names of `GET /api/attendance`, exactly as FastAPI
derives them from the parameter names of `list_attendance` in the source. -/
def listAttendanceParamNames : List String :=
  ["employee_id", "date_value", "status"]

/-- Ordering used by the attendance listings: `Attendance.date.desc()`. -/
def dateDesc (a b : AttendanceRow) : Prop := b.date ≤ a.date

instance : DecidableRel dateDesc := fun a b => Nat.decLe b.date a.date

instance : IsTotal AttendanceRow dateDesc :=
  ⟨fun a b => Nat.le_total b.date a.date⟩

instance : IsTrans AttendanceRow dateDesc :=
  ⟨fun _ _ _ h1 h2 => Nat.le_trans h2 h1⟩

/-- `GET /api/attendance` (`list_attendance`): apply each supplied filter in
turn (`employee_id`, `date_value`, `status`, all exact), order by `date`
descending, return all matches (no offset/limit). -/
def list_attendance (s : Store) (p : ListAttendanceParams) : List AttendanceRow :=
  let q := s.attendance
  let q := optFilter q p.employee_id (fun v a => a.employee_id == v)
  let q := optFilter q p.date_value (fun v a => a.date == v)
  let q := optFilter q p.status (fun v a => a.status == v)
  q.insertionSort dateDesc

/-- `GET /api/attendance/{employee_id}` (`list_attendance_for_employee`):
404 if the employee does not exist, otherwise all of its attendance rows
ordered by `date` descending. -/
def list_attendance_for_employee (s : Store) (eid : Nat) :
    Except ApiError (List AttendanceRow) :=
  if (s.employees.find? (fun e => e.id == eid)).isSome then
    .ok ((s.attendance.filter (fun a => a.employee_id == eid)).insertionSort dateDesc)
  else
    .error (.notFound "Employee not found")

-- ---------------------------------------------------------------------------
-- Store invariants
-- ---------------------------------------------------------------------------

/-- Referential integrity of a store state: every attendance row references
an existing employee.  This is the FK invariant the schema enforces
(`ForeignKey("employees.id", ondelete="CASCADE")`), so every reachable
store state satisfies it. -/
def Store.RefIntact (s : Store) : Prop :=
  ∀ a ∈ s.attendance, ∃ e ∈ s.employees, e.id = a.employee_id

/-- Primary-key uniqueness of the `employees` table: no two rows share an
`id`.  Enforced by the store (`id` is the integer primary key), so every
reachable store state satisfies it. -/
def Store.UniqueEmpIds (s : Store) : Prop :=
  s.employees.Pairwise (fun a b => a.id ≠ b.id)

instance (s : Store) : Decidable s.RefIntact := by
  unfold Store.RefIntact
  infer_instance

instance (s : Store) : Decidable s.UniqueEmpIds := by
  unfold Store.UniqueEmpIds
  infer_instance

-- ---------------------------------------------------------------------------
-- The storage layer under a race (for the constraint-violation claim)
-- ---------------------------------------------------------------------------

/-- A raw storage-layer error: SQLAlchemy's `IntegrityError`, the spec's
`ConstraintViolation`.  Distinct from the typed `ApiError`s the handlers
raise deliberately. -/
structure StorageError where
  msg : String
deriving Repr, DecidableEq

/-- Storage-level insert into `employees`: the store enforces the primary
key and the `UNIQUE` constraints on `employee_id` and `email` declared in
the schema, rejecting the transaction with a constraint violation if any
is violated. -/
def insertEmployeeRow (s : Store) (emp : EmployeeRow) : Except StorageError Store :=
  if s.employees.any
      (fun e => e.id == emp.id || e.employee_id == emp.employee_id || e.email == emp.email) then
    .error { msg := "UNIQUE constraint failed" }
  else
    .ok { s with employees := s.employees ++ [emp], nextEmployeeId := s.nextEmployeeId + 1 }

/-- Storage-level insert into `attendance`: the store enforces the primary
key and the `UniqueConstraint("employee_id", "date")` of the schema. -/
def insertAttendanceRow (s : Store) (att : AttendanceRow) : Except StorageError Store :=
  if s.attendance.any
      (fun a => a.id == att.id || (a.employee_id == att.employee_id && a.date == att.date)) then
    .error { msg := "UNIQUE constraint failed" }
  else
    .ok { s with attendance := s.attendance ++ [att], nextAttendanceId := s.nextAttendanceId + 1 }

/-- The transport-level outcome of one request: a success, a typed
`HTTPException`, or an exception that escaped the handler (which the
framework surfaces as a generic 500, not a typed error). -/
inductive Outcome (α : Type) where
  | ok (v : α)
  | apiError (e : ApiError)
  | uncaught (e : StorageError)
deriving Repr, DecidableEq

/-- Whether an outcome is a `DuplicateKey` (HTTP 400) response. -/
def Outcome.isDuplicateKey {α : Type} : Outcome α → Bool
  | .apiError (.duplicateKey _) => true
  | _ => false

/-- `create_employee` under a uniqueness race: the handler's pre-checks run
against its read snapshot `sRead`, while the `INSERT`/`commit` runs against
the store `sCommit` as left by a concurrently committed request.  The
source wraps `db.add`/`db.commit` in no `try`/`except`, so a storage
constraint violation at commit propagates out of the handler uncaught. -/
def create_employee_raced (sRead sCommit : Store) (e_in : EmployeeCreate) (now : Nat) :
    Outcome (EmployeeRow × Store) :=
  if (sRead.employees.find? (fun e => e.employee_id == e_in.employee_id)).isSome then
    .apiError (.duplicateKey "Employee ID already exists")
  else if (sRead.employees.find? (fun e => e.email == e_in.email)).isSome then
    .apiError (.duplicateKey "Email is already in use")
  else
    match insertEmployeeRow sCommit (newEmployeeRow sCommit e_in now) with
    | .ok s' => .ok (newEmployeeRow sCommit e_in now, s')
    | .error err => .uncaught err

/-- `create_attendance` under a uniqueness race, built like
`create_employee_raced`: pre-checks against `sRead`, `INSERT`/`commit`
against `sCommit`, and no `try`/`except` around the commit. -/
def create_attendance_raced (sRead sCommit : Store) (a_in : AttendanceCreate) :
    Outcome (AttendanceRow × Store) :=
  if (sRead.employees.find? (fun e => e.id == a_in.employee_id)).isSome then
    if (sRead.attendance.find?
        (fun a => a.employee_id == a_in.employee_id && a.date == a_in.date)).isSome then
      .apiError (.duplicateKey "Attendance already recorded for this employee and date")
    else
      match insertAttendanceRow sCommit (newAttendanceRow sCommit a_in) with
      | .ok s' => .ok (newAttendanceRow sCommit a_in, s')
      | .error err => .uncaught err
  else
    .apiError (.notFound "Employee not found")

-- ---------------------------------------------------------------------------
-- Spec-side filter predicates (single conjunctions, for the list claims)
-- ---------------------------------------------------------------------------

/-- The conjunction of the supplied `GET /api/employees` filters, as one
predicate: `id`, `employee_id`, `email`, `department` exact, `full_name`
matched case-insensitively against the `LIKE` pattern `%full_name%`. -/
def employeeMatches (p : ListEmployeesParams) (e : EmployeeRow) : Bool :=
  (match p.id with | none => true | some v => e.id == v) &&
  ((match p.employee_id with | none => true | some v => e.employee_id == v) &&
   ((match p.full_name with | none => true | some v => ilikeMatch ("%" ++ v ++ "%") e.full_name) &&
    ((match p.email with | none => true | some v => e.email == v) &&
     (match p.department with | none => true | some v => e.department == some v))))

/-- The conjunction of the supplied `GET /api/attendance` filters, as one
predicate: `employee_id`, `date_value` and `status`, all exact. -/
def attendanceMatches (p : ListAttendanceParams) (a : AttendanceRow) : Bool :=
  (match p.employee_id with | none => true | some v => a.employee_id == v) &&
  ((match p.date_value with | none => true | some v => a.date == v) &&
   (match p.status with | none => true | some v => a.status == v))

/-- The `(id, department)` column projection of the `employees` table;
used to state that an update touches no row's `department`. -/
def idDeptPairs (l : List EmployeeRow) : List (Nat × Option String) :=
  l.map (fun e => (e.id, e.department))

/-- An `EmployeeUpdate` payload that supplies exactly one of the three
mutable fields. -/
def ExactlyOneField (u : EmployeeUpdate) : Prop :=
  (u.email = none ∧ u.department = none ∧ ∃ v, u.full_name = some v) ∨
  (u.full_name = none ∧ u.department = none ∧ ∃ v, u.email = some v) ∨
  (u.full_name = none ∧ u.email = none ∧ ∃ v, u.department = some v)

-- ---------------------------------------------------------------------------
-- Helper lemmas
-- ---------------------------------------------------------------------------

theorem filter_filter_eq {α : Type} (p q : α → Bool) (l : List α) :
    (l.filter p).filter q = l.filter (fun a => p a && q a) := by
  induction l with
  | nil => rfl
  | cons a l ih =>
    by_cases hp : p a <;> by_cases hq : q a <;>
      simp [List.filter_cons, hp, hq, ih]

theorem optFilter_eq {α β : Type} (l : List α) (o : Option β) (f : β → α → Bool) :
    optFilter l o f = l.filter (fun a => (Option.map f o).getD (fun _ => true) a) := by
  cases o with
  | none => exact (List.filter_true l).symm
  | some v => rfl

theorem uniqueIds_eq_of_id_eq {l : List EmployeeRow}
    (h : l.Pairwise (fun a b => a.id ≠ b.id)) {e e' : EmployeeRow}
    (he : e ∈ l) (he' : e' ∈ l) (hid : e.id = e'.id) : e = e' := by
  by_contra hne
  have hs : Symmetric (fun (a b : EmployeeRow) => a.id ≠ b.id) :=
    fun a b hab => Ne.symm hab
  exact (List.Pairwise.forall hs h he he' hne) hid

-- ---------------------------------------------------------------------------
-- C1: duplicate employee_id / email rejected on create
-- ---------------------------------------------------------------------------

/-- C1: for every store state and every Create Employee request whose
`employee_id` or `email` equals that of an already-stored employee,
`create_employee` fails with a `DuplicateKey` error (HTTP 400) and the
store — both the employees and the attendance table — is unchanged. -/
theorem create_employee_duplicate_rejected (s : Store) (e_in : EmployeeCreate) (now : Nat)
    (h : ∃ e ∈ s.employees, e.employee_id = e_in.employee_id ∨ e.email = e_in.email) :
    (create_employee s e_in now = .error (.duplicateKey "Employee ID already exists") ∨
     create_employee s e_in now = .error (.duplicateKey "Email is already in use")) ∧
    (ApiError.duplicateKey "Employee ID already exists").statusCode = 400 ∧
    (ApiError.duplicateKey "Email is already in use").statusCode = 400 ∧
    afterStore s (create_employee s e_in now) = s := by
  rcases h with ⟨e, he, hcase⟩
  by_cases h1 : (s.employees.find? (fun x => x.employee_id == e_in.employee_id)).isSome = true
  · have hc : create_employee s e_in now = .error (.duplicateKey "Employee ID already exists") := by
      unfold create_employee
      rw [if_pos h1]
    exact ⟨Or.inl hc, rfl, rfl, by rw [hc]; rfl⟩
  · have h2 : (s.employees.find? (fun x => x.email == e_in.email)).isSome = true := by
      rcases hcase with hid | hem
      · exact absurd (List.find?_isSome.mpr ⟨e, he, by simp [hid]⟩) h1
      · exact List.find?_isSome.mpr ⟨e, he, by simp [hem]⟩
    have hc : create_employee s e_in now = .error (.duplicateKey "Email is already in use") := by
      unfold create_employee
      rw [if_neg h1, if_pos h2]
    exact ⟨Or.inr hc, rfl, rfl, by rw [hc]; rfl⟩

def w1Emp : EmployeeRow :=
  { id := 1, employee_id := "E1", full_name := "Ann", email := "ann@x.com",
    department := none, created_at := 0 }

def w1Store : Store := { employees := [w1Emp], attendance := [] }

def w1Req : EmployeeCreate :=
  { employee_id := "E1", full_name := "Bob", email := "bob@x.com" }

/-- C1 witness: a second create reusing `employee_id` "E1" is rejected and
leaves the one-employee store unchanged. -/
theorem create_employee_duplicate_rejected_witness :
    (create_employee w1Store w1Req 7 = .error (.duplicateKey "Employee ID already exists") ∨
     create_employee w1Store w1Req 7 = .error (.duplicateKey "Email is already in use")) ∧
    (ApiError.duplicateKey "Employee ID already exists").statusCode = 400 ∧
    (ApiError.duplicateKey "Email is already in use").statusCode = 400 ∧
    afterStore w1Store (create_employee w1Store w1Req 7) = w1Store :=
  create_employee_duplicate_rejected w1Store w1Req 7 ⟨w1Emp, by decide, Or.inl rfl⟩

-- ---------------------------------------------------------------------------
-- C2: duplicate (employee_id, date) rejected on attendance create
-- ---------------------------------------------------------------------------

/-- C2: in every store state satisfying referential integrity (the FK
invariant every reachable state has), a Create Attendance request whose
`(employee_id, date)` pair equals that of a stored attendance record fails
with a `DuplicateKey` error (HTTP 400), and no attendance record is
inserted: the store is unchanged. -/
theorem create_attendance_duplicate_rejected (s : Store) (a_in : AttendanceCreate)
    (hri : s.RefIntact)
    (ha : ∃ a ∈ s.attendance, a.employee_id = a_in.employee_id ∧ a.date = a_in.date) :
    create_attendance s a_in =
      .error (.duplicateKey "Attendance already recorded for this employee and date") ∧
    (ApiError.duplicateKey "Attendance already recorded for this employee and date").statusCode
      = 400 ∧
    afterStore s (create_attendance s a_in) = s := by
  rcases ha with ⟨a, haMem, h1, h2⟩
  have hemp : (s.employees.find? (fun e => e.id == a_in.employee_id)).isSome = true := by
    rcases hri a haMem with ⟨e, heMem, hid⟩
    exact List.find?_isSome.mpr ⟨e, heMem, by simp [hid, h1]⟩
  have hdup : (s.attendance.find?
      (fun x => x.employee_id == a_in.employee_id && x.date == a_in.date)).isSome = true :=
    List.find?_isSome.mpr ⟨a, haMem, by simp [h1, h2]⟩
  have hc : create_attendance s a_in =
      .error (.duplicateKey "Attendance already recorded for this employee and date") := by
    unfold create_attendance
    rw [if_pos hemp, if_pos hdup]
  exact ⟨hc, rfl, by rw [hc]; rfl⟩

def w2Emp : EmployeeRow :=
  { id := 1, employee_id := "E1", full_name := "Ann", email := "ann@x.com",
    department := none, created_at := 0 }

def w2Att : AttendanceRow := { id := 1, employee_id := 1, date := 5, status := .present }

def w2Store : Store := { employees := [w2Emp], attendance := [w2Att] }

def w2Req : AttendanceCreate := { employee_id := 1, date := 5, status := .absent }

/-- C2 witness: a second attendance record for employee 1 on day 5 is
rejected and the store is unchanged. -/
theorem create_attendance_duplicate_rejected_witness :
    create_attendance w2Store w2Req =
      .error (.duplicateKey "Attendance already recorded for this employee and date") ∧
    (ApiError.duplicateKey "Attendance already recorded for this employee and date").statusCode
      = 400 ∧
    afterStore w2Store (create_attendance w2Store w2Req) = w2Store :=
  create_attendance_duplicate_rejected w2Store w2Req (by decide)
    ⟨w2Att, by decide, rfl, rfl⟩

-- ---------------------------------------------------------------------------
-- C3: attendance create for a missing employee rejected
-- ---------------------------------------------------------------------------

/-- C3: for every store state and every Create Attendance request whose
`employee_id` matches no stored employee, `create_attendance` fails with a
`NotFound` error (HTTP 404) and the store — in particular the attendance
table — is unchanged. -/
theorem create_attendance_missing_employee (s : Store) (a_in : AttendanceCreate)
    (h : ∀ e ∈ s.employees, e.id ≠ a_in.employee_id) :
    create_attendance s a_in = .error (.notFound "Employee not found") ∧
    (ApiError.notFound "Employee not found").statusCode = 404 ∧
    afterStore s (create_attendance s a_in) = s := by
  have hn : s.employees.find? (fun e => e.id == a_in.employee_id) = none :=
    List.find?_eq_none.mpr (fun e he => by simpa using h e he)
  have hc : create_attendance s a_in = .error (.notFound "Employee not found") := by
    unfold create_attendance
    simp [hn]
  exact ⟨hc, rfl, by rw [hc]; rfl⟩

def w3Emp : EmployeeRow :=
  { id := 1, employee_id := "E1", full_name := "Ann", email := "ann@x.com",
    department := none, created_at := 0 }

def w3Store : Store := { employees := [w3Emp], attendance := [] }

def w3Req : AttendanceCreate := { employee_id := 9, date := 5, status := .present }

/-- C3 witness: recording attendance for the non-existent employee id 9
fails with `NotFound` and writes nothing. -/
theorem create_attendance_missing_employee_witness :
    create_attendance w3Store w3Req = .error (.notFound "Employee not found") ∧
    (ApiError.notFound "Employee not found").statusCode = 404 ∧
    afterStore w3Store (create_attendance w3Store w3Req) = w3Store :=
  create_attendance_missing_employee w3Store w3Req (by decide)

-- ---------------------------------------------------------------------------
-- C4: deleting an employee cascades to its attendance
-- ---------------------------------------------------------------------------

/-- C4: deleting a stored employee by id succeeds (the route returns
HTTP 204 with no body), removes exactly that employee row and exactly the
attendance rows referencing it (all other rows of both tables are kept,
in order), and afterwards looking the employee up fails — a further
delete returns `NotFound`, and List Attendance For Employee on that id
returns `NotFound` (HTTP 404). -/
theorem delete_employee_cascades (s : Store) (eid : Nat)
    (h : (s.employees.find? (fun e => e.id == eid)).isSome = true) :
    delete_employee s eid = .ok ((),
      { s with employees := s.employees.filter (fun e => e.id != eid),
               attendance := s.attendance.filter (fun a => a.employee_id != eid) }) ∧
    (afterStore s (delete_employee s eid)).employees
      = s.employees.filter (fun e => e.id != eid) ∧
    (afterStore s (delete_employee s eid)).attendance
      = s.attendance.filter (fun a => a.employee_id != eid) ∧
    (afterStore s (delete_employee s eid)).employees.find? (fun e => e.id == eid) = none ∧
    list_attendance_for_employee (afterStore s (delete_employee s eid)) eid
      = .error (.notFound "Employee not found") ∧
    delete_employee (afterStore s (delete_employee s eid)) eid
      = .error (.notFound "Employee not found") ∧
    (ApiError.notFound "Employee not found").statusCode = 404 ∧
    delete_employee_success_status = 204 := by
  obtain ⟨emp, hemp⟩ := Option.isSome_iff_exists.mp h
  have hdel : delete_employee s eid = .ok ((),
      { s with employees := s.employees.filter (fun e => e.id != eid),
               attendance := s.attendance.filter (fun a => a.employee_id != eid) }) := by
    unfold delete_employee
    rw [hemp]
  have hafter : afterStore s (delete_employee s eid)
      = { s with employees := s.employees.filter (fun e => e.id != eid),
                 attendance := s.attendance.filter (fun a => a.employee_id != eid) } := by
    rw [hdel]; rfl
  have hnone : (s.employees.filter (fun e => e.id != eid)).find? (fun e => e.id == eid)
      = none := by
    refine List.find?_eq_none.mpr (fun x hx => ?_)
    have h2 := (List.mem_filter.mp hx).2
    simp only [bne_iff_ne, ne_eq] at h2
    simp [h2]
  refine ⟨hdel, ?_, ?_, ?_, ?_, ?_, rfl, rfl⟩
  · rw [hafter]
  · rw [hafter]
  · rw [hafter]; exact hnone
  · rw [hafter]; unfold list_attendance_for_employee; simp [hnone]
  · rw [hafter]; unfold delete_employee; simp [hnone]

def w4Emp1 : EmployeeRow :=
  { id := 1, employee_id := "E1", full_name := "Ann", email := "ann@x.com",
    department := none, created_at := 0 }

def w4Emp2 : EmployeeRow :=
  { id := 2, employee_id := "E2", full_name := "Bob", email := "bob@x.com",
    department := some "Eng", created_at := 1 }

def w4Att1 : AttendanceRow := { id := 1, employee_id := 1, date := 5, status := .present }

def w4Att2 : AttendanceRow := { id := 2, employee_id := 2, date := 5, status := .absent }

def w4Store : Store :=
  { employees := [w4Emp1, w4Emp2], attendance := [w4Att1, w4Att2],
    nextEmployeeId := 3, nextAttendanceId := 3 }

/-- C4 witness: deleting employee 1 from a two-employee store removes it
and its attendance row, and a later List Attendance For Employee on id 1
returns `NotFound`. -/
theorem delete_employee_cascades_witness :
    delete_employee w4Store 1 = .ok ((),
      { w4Store with employees := w4Store.employees.filter (fun e => e.id != 1),
                     attendance := w4Store.attendance.filter (fun a => a.employee_id != 1) }) ∧
    list_attendance_for_employee (afterStore w4Store (delete_employee w4Store 1)) 1
      = .error (.notFound "Employee not found") :=
  ⟨(delete_employee_cascades w4Store 1 (by decide)).1,
   (delete_employee_cascades w4Store 1 (by decide)).2.2.2.2.1⟩

-- ---------------------------------------------------------------------------
-- C5: partial update with exactly one supplied field
-- ---------------------------------------------------------------------------

def c5Emp1 : EmployeeRow :=
  { id := 1, employee_id := "E1", full_name := "Ann", email := "ann@x.com",
    department := none, created_at := 0 }

def c5Emp2 : EmployeeRow :=
  { id := 2, employee_id := "E2", full_name := "Bob", email := "bob@x.com",
    department := none, created_at := 1 }

def c5Store : Store :=
  { employees := [c5Emp1, c5Emp2], attendance := [], nextEmployeeId := 3 }

def c5Payload : EmployeeUpdate := { email := some "bob@x.com" }

/-- C5 counterexample: a payload supplying exactly one field (`email`) does
not always change that field — when the supplied email is already used by
another stored employee, `update_employee` rejects the request with
`DuplicateKey` and changes nothing. -/
theorem update_employee_one_field_cex :
    ExactlyOneField c5Payload ∧
    update_employee c5Store 1 c5Payload = .error (.duplicateKey "Email is already in use") ∧
    afterStore c5Store (update_employee c5Store 1 c5Payload) = c5Store :=
  ⟨Or.inr (Or.inl ⟨rfl, rfl, ⟨"bob@x.com", rfl⟩⟩), rfl, rfl⟩

/-- C5 (amended): for a stored employee and an update payload supplying
exactly one of `full_name`, `email`, `department`, provided the payload
does not trip the email-uniqueness guard (the supplied email, when it is
the supplied field, is not already used by a different stored employee),
`update_employee` succeeds, the returned row changes exactly the supplied
field to the supplied value, and `id`, `employee_id`, `created_at` and the
omitted mutable fields keep their prior values. -/
theorem update_employee_one_field (s : Store) (eid : Nat) (u : EmployeeUpdate)
    (emp : EmployeeRow)
    (hfind : s.employees.find? (fun e => e.id == eid) = some emp)
    (hone : ExactlyOneField u)
    (hguard : emailConflict s emp u = false) :
    ∃ e', update_employee s eid u = .ok (e',
        { s with employees := s.employees.map (fun e => if e.id == eid then e' else e) }) ∧
      e'.id = emp.id ∧ e'.employee_id = emp.employee_id ∧ e'.created_at = emp.created_at ∧
      (∀ v, u.full_name = some v → e'.full_name = v) ∧
      (u.full_name = none → e'.full_name = emp.full_name) ∧
      (∀ v, u.email = some v → e'.email = v) ∧
      (u.email = none → e'.email = emp.email) ∧
      (∀ v, u.department = some v → e'.department = some v) ∧
      (u.department = none → e'.department = emp.department) := by
  refine ⟨mergeUpdate emp u, ?_, rfl, rfl, rfl, ?_, ?_, ?_, ?_, ?_, ?_⟩
  · unfold update_employee
    rw [hfind]
    simp [hguard]
  · intro v hv
    unfold mergeUpdate
    rw [hv]
  · intro hv
    unfold mergeUpdate
    rw [hv]
  · intro v hv
    unfold mergeUpdate
    rw [hv]
  · intro hv
    unfold mergeUpdate
    rw [hv]
  · intro v hv
    unfold mergeUpdate
    rw [hv]
  · intro hv
    unfold mergeUpdate
    rw [hv]

def w5Emp : EmployeeRow :=
  { id := 1, employee_id := "E1", full_name := "Ann", email := "ann@x.com",
    department := some "Eng", created_at := 0 }

def w5Store : Store := { employees := [w5Emp], attendance := [], nextEmployeeId := 2 }

def w5Payload : EmployeeUpdate := { full_name := some "Nancy" }

/-- C5 witness: updating only `full_name` of a stored employee passes the
guard and succeeds. -/
theorem update_employee_one_field_witness :
    ExactlyOneField w5Payload ∧
    emailConflict w5Store w5Emp w5Payload = false ∧
    (update_employee w5Store 1 w5Payload).isOk = true := by
  obtain ⟨e', heq, -⟩ := update_employee_one_field w5Store 1 w5Payload w5Emp rfl
    (Or.inl ⟨rfl, rfl, ⟨"Nancy", rfl⟩⟩) rfl
  exact ⟨Or.inl ⟨rfl, rfl, ⟨"Nancy", rfl⟩⟩, rfl, by rw [heq]; rfl⟩

-- ---------------------------------------------------------------------------
-- C7: the full_name length invariant under update
-- ---------------------------------------------------------------------------

def c7Emp : EmployeeRow :=
  { id := 1, employee_id := "E1", full_name := "Ann", email := "ann@x.com",
    department := none, created_at := 0 }

def c7Store : Store := { employees := [c7Emp], attendance := [], nextEmployeeId := 2 }

def c7Payload : EmployeeUpdate := { full_name := some "" }

def c7EmpAfter : EmployeeRow :=
  { id := 1, employee_id := "E1", full_name := "", email := "ann@x.com",
    department := none, created_at := 0 }

def c7StoreAfter : Store := { employees := [c7EmpAfter], attendance := [], nextEmployeeId := 2 }

/-- C7: the code violates the stated invariant.  `EmployeeUpdate` declares
no `min_length` for `full_name` (only `max_length=255`), so the payload
`{"full_name": ""}` passes validation, and `update_employee` stores the
empty name: the stored employee ends with `full_name` of length 0, outside
the spec's 1–255 range. -/
theorem update_employee_breaks_full_name_invariant :
    EmployeeCreate.valid { employee_id := "E1", full_name := "Ann", email := "ann@x.com" } = true ∧
    EmployeeUpdate.valid c7Payload = true ∧
    update_employee c7Store 1 c7Payload = .ok (c7EmpAfter, c7StoreAfter) ∧
    c7EmpAfter.full_name.length = 0 :=
  ⟨rfl, rfl, rfl, rfl⟩

-- ---------------------------------------------------------------------------
-- C10: a null department in the update payload never clears the field
-- ---------------------------------------------------------------------------

/-- C10: in any store with unique employee ids (the PK invariant), an
update payload whose `department` is absent or explicitly null (`none`)
leaves every row's `department` unchanged — the `(id, department)`
projection of the employees table is preserved — and no update payload at
all can reset a non-null `department` back to null. -/
theorem update_department_never_cleared (s : Store) (eid : Nat) (u : EmployeeUpdate)
    (huniq : s.UniqueEmpIds) :
    (u.department = none →
      idDeptPairs (afterStore s (update_employee s eid u)).employees
        = idDeptPairs s.employees) ∧
    (∀ e ∈ s.employees, e.department ≠ none →
      ∀ e' ∈ (afterStore s (update_employee s eid u)).employees,
        e'.id = e.id → e'.department ≠ none) := by
  cases hfind : s.employees.find? (fun e => e.id == eid) with
  | none =>
    have hsame : afterStore s (update_employee s eid u) = s := by
      unfold update_employee
      rw [hfind]
      rfl
    rw [hsame]
    exact ⟨fun _ => rfl,
      fun e he hd e' he' hid => by rw [uniqueIds_eq_of_id_eq huniq he' he hid]; exact hd⟩
  | some emp =>
    have hempMem : emp ∈ s.employees := List.mem_of_find?_eq_some hfind
    have hempId : emp.id = eid := by
      have := List.find?_some hfind
      simpa using this
    by_cases hg : emailConflict s emp u = true
    · have hupd : update_employee s eid u = .error (.duplicateKey "Email is already in use") := by
        unfold update_employee
        rw [hfind]
        simp [hg]
      have hsame : afterStore s (update_employee s eid u) = s := by rw [hupd]; rfl
      rw [hsame]
      exact ⟨fun _ => rfl,
        fun e he hd e' he' hid => by rw [uniqueIds_eq_of_id_eq huniq he' he hid]; exact hd⟩
    · have hg' : emailConflict s emp u = false := by
        cases hb : emailConflict s emp u
        · rfl
        · exact absurd hb hg
      have hupd : update_employee s eid u = .ok (mergeUpdate emp u,
          { s with employees := s.employees.map (fun e => if e.id == eid then mergeUpdate emp u else e) }) := by
        unfold update_employee
        rw [hfind]
        simp [hg']
      have hs' : (afterStore s (update_employee s eid u)).employees
          = s.employees.map (fun e => if e.id == eid then mergeUpdate emp u else e) := by
        rw [hupd]
        rfl
      constructor
      · intro hdept
        rw [hs']
        unfold idDeptPairs
        rw [List.map_map]
        refine List.map_congr_left (fun a ha => ?_)
        by_cases hc : (a.id == eid) = true
        · have haEmp : a = emp :=
            uniqueIds_eq_of_id_eq huniq ha hempMem (by rw [beq_iff_eq.mp hc, hempId])
          simp only [Function.comp_apply, hc, if_true]
          rw [haEmp]
          unfold mergeUpdate
          rw [hdept]
        · have hne : a.id ≠ eid := by simpa using hc
          simp [hne]
      · intro e he hd e' he' hid
        rw [hs'] at he'
        obtain ⟨a, ha, hfa⟩ := List.mem_map.mp he'
        by_cases hc : (a.id == eid) = true
        · have he'm : e' = mergeUpdate emp u := by rw [← hfa]; simp [hc]
          have hEmpE : emp = e := by
            apply uniqueIds_eq_of_id_eq huniq hempMem he
            have : (mergeUpdate emp u).id = e.id := by rw [← he'm]; exact hid
            exact this
          rw [he'm]
          unfold mergeUpdate
          cases hdep : u.department with
          | none =>
            simp only
            rw [← hEmpE] at hd
            exact hd
          | some d => simp
        · have he'a : e' = a := by rw [← hfa]; simp [hc]
          have haE : a = e := by
            apply uniqueIds_eq_of_id_eq huniq ha he
            rw [← he'a]
            exact hid
          rw [he'a, haE]
          exact hd

def w10Emp : EmployeeRow :=
  { id := 1, employee_id := "E1", full_name := "Ann", email := "ann@x.com",
    department := some "Eng", created_at := 0 }

def w10Store : Store := { employees := [w10Emp], attendance := [], nextEmployeeId := 2 }

def w10Payload : EmployeeUpdate := { full_name := some "Nancy" }

/-- C10 witness: an update renaming employee 1 but carrying a null
`department` leaves the `(id, department)` column projection untouched. -/
theorem update_department_never_cleared_witness :
    Store.UniqueEmpIds w10Store ∧
    idDeptPairs (afterStore w10Store (update_employee w10Store 1 w10Payload)).employees
      = idDeptPairs w10Store.employees :=
  ⟨by decide, (update_department_never_cleared w10Store 1 w10Payload (by decide)).1 rfl⟩

-- ---------------------------------------------------------------------------
-- C6: GET /api/attendance filtering and ordering
-- ---------------------------------------------------------------------------

theorem list_attendance_conj (s : Store) (p : ListAttendanceParams) :
    list_attendance s p = (s.attendance.filter (attendanceMatches p)).insertionSort dateDesc := by
  dsimp only [list_attendance]
  rw [optFilter_eq, optFilter_eq, optFilter_eq, filter_filter_eq, filter_filter_eq]
  congr 1
  refine List.filter_congr (fun a _ => ?_)
  unfold attendanceMatches
  cases p.employee_id <;> cases p.date_value <;> cases p.status <;> rfl

/-- C6 counterexample: the date filter of `GET /api/attendance` is not
named `date` — the FastAPI query parameter derived from the source
signature is `date_value` — so the operation does not accept a filter
named `date`. -/
theorem list_attendance_param_name_cex :
    "date" ∉ listAttendanceParamNames ∧ "date_value" ∈ listAttendanceParamNames := by
  decide

/-- C6 (amended): `GET /api/attendance` accepts the optional filters
`employee_id`, `date_value` and `status`, and returns exactly the
attendance records matching the conjunction of the supplied filters —
no pagination is applied — ordered by `date` descending. -/
theorem list_attendance_spec (s : Store) (p : ListAttendanceParams) :
    (list_attendance s p).Perm (s.attendance.filter (attendanceMatches p)) ∧
    List.Sorted dateDesc (list_attendance s p) ∧
    listAttendanceParamNames = ["employee_id", "date_value", "status"] := by
  refine ⟨?_, ?_, rfl⟩
  · rw [list_attendance_conj]
    exact List.perm_insertionSort dateDesc _
  · rw [list_attendance_conj]
    exact List.sorted_insertionSort dateDesc _

-- ---------------------------------------------------------------------------
-- C8: GET /api/employees filtering, ordering, pagination
-- ---------------------------------------------------------------------------

theorem list_employees_conj (s : Store) (p : ListEmployeesParams) :
    list_employees s p =
      (((s.employees.filter (employeeMatches p)).insertionSort createdDesc).drop
        p.skip).take p.limit := by
  dsimp only [list_employees]
  rw [optFilter_eq, optFilter_eq, optFilter_eq, optFilter_eq, optFilter_eq,
    filter_filter_eq, filter_filter_eq, filter_filter_eq, filter_filter_eq]
  refine congrArg (List.take p.limit) (congrArg (List.drop p.skip)
    (congrArg (List.insertionSort createdDesc) ?_))
  refine List.filter_congr (fun e _ => ?_)
  unfold employeeMatches
  cases p.id <;> cases p.employee_id <;> cases p.full_name <;> cases p.email <;>
    cases p.department <;> rfl

def c8Emp : EmployeeRow :=
  { id := 1, employee_id := "E1", full_name := "abc", email := "a@x.com",
    department := none, created_at := 0 }

def c8Store : Store := { employees := [c8Emp], attendance := [], nextEmployeeId := 2 }

def c8Params : ListEmployeesParams := { full_name := some "a_c" }

/-- C8 counterexample: the `full_name` filter is not a case-insensitive
substring test.  The filter string is interpolated into a SQL `LIKE`
pattern (`ilike(f"%{full_name}%")`), whose wildcard `_` matches any single
character: the filter "a_c" returns the employee named "abc" even though
"a_c" is not a substring of "abc". -/
theorem list_employees_substring_cex :
    list_employees c8Store c8Params = [c8Emp] ∧ substrCI "a_c" "abc" = false := by
  constructor
  · have hlm : ilikeMatch "%a_c%" "abc" = true := by
      unfold ilikeMatch
      simp [likeChars]
    simp [list_employees, optFilter, c8Store, c8Params, c8Emp, hlm]
  · decide

/-- C8 (amended): `list_employees` returns the page (`drop skip`, then
`take limit`, defaults 0 and 100) of the list of employees matching the
conjunction of the supplied filters (`id`, `employee_id`, `email`,
`department` exact; `full_name` matched case-insensitively against the
SQL LIKE pattern `%full_name%`, which is a substring test only when the
filter contains no `%`/`_` wildcard), ordered by `created_at` descending. -/
theorem list_employees_page_spec (s : Store) (p : ListEmployeesParams) :
    (∃ sorted : List EmployeeRow,
      sorted.Perm (s.employees.filter (employeeMatches p)) ∧
      List.Sorted createdDesc sorted ∧
      list_employees s p = (sorted.drop p.skip).take p.limit) ∧
    List.Sorted createdDesc (list_employees s p) ∧
    ({} : ListEmployeesParams).skip = 0 ∧ ({} : ListEmployeesParams).limit = 100 := by
  refine ⟨⟨(s.employees.filter (employeeMatches p)).insertionSort createdDesc,
    List.perm_insertionSort createdDesc _, List.sorted_insertionSort createdDesc _,
    list_employees_conj s p⟩, ?_, rfl, rfl⟩
  rw [list_employees_conj]
  exact List.Pairwise.sublist
    ((List.take_sublist _ _).trans (List.drop_sublist _ _))
    (List.sorted_insertionSort createdDesc _)

-- ---------------------------------------------------------------------------
-- C9: storage constraint violations are not re-classified
-- ---------------------------------------------------------------------------

def w9Emp : EmployeeRow :=
  { id := 1, employee_id := "E1", full_name := "Ann", email := "ann@x.com",
    department := none, created_at := 0 }

def w9EmpOther : EmployeeRow :=
  { id := 5, employee_id := "E2", full_name := "Eve", email := "eve@x.com",
    department := none, created_at := 1 }

def w9Att : AttendanceRow := { id := 1, employee_id := 1, date := 3, status := .present }

def w9Read : Store := { employees := [w9Emp], attendance := [], nextEmployeeId := 2 }

def w9Commit : Store :=
  { employees := [w9Emp, w9EmpOther], attendance := [w9Att],
    nextEmployeeId := 6, nextAttendanceId := 2 }

def w9Req : EmployeeCreate := { employee_id := "E2", full_name := "Bob", email := "bob@x.com" }

def w9AttReq : AttendanceCreate := { employee_id := 1, date := 3, status := .absent }

def c9Read : Store := { employees := [], attendance := [] }

def c9Commit : Store := { employees := [w9Emp], attendance := [], nextEmployeeId := 2 }

def c9Req : EmployeeCreate := { employee_id := "E9", full_name := "Bob", email := "ann@x.com" }

/-- C9 counterexample: a create whose pre-checks pass against its read
snapshot but whose insert is rejected by the storage layer (a concurrent
request committed the same email first) ends as an uncaught raw storage
error — not as a `DuplicateKey` response — because the source wraps
`db.add`/`db.commit` in no `try`/`except`. -/
theorem raced_constraint_violation_cex :
    insertEmployeeRow c9Commit (newEmployeeRow c9Commit c9Req 0)
      = .error { msg := "UNIQUE constraint failed" } ∧
    create_employee_raced c9Read c9Commit c9Req 0
      = .uncaught { msg := "UNIQUE constraint failed" } ∧
    (create_employee_raced c9Read c9Commit c9Req 0).isDuplicateKey = false :=
  ⟨rfl, rfl, rfl⟩

/-- C9 (amended): when the pre-checks of `create_employee` or
`create_attendance` pass against the handler's read snapshot but the
storage layer rejects the insert with a constraint violation (a lost
uniqueness race), the handler surfaces the raw storage error uncaught
rather than re-classifying it as `DuplicateKey`. -/
theorem raced_constraint_violation_uncaught
    (sRead sCommit : Store) (e_in : EmployeeCreate) (now : Nat)
    (a_in : AttendanceCreate) (errE errA : StorageError)
    (h1 : sRead.employees.find? (fun e => e.employee_id == e_in.employee_id) = none)
    (h2 : sRead.employees.find? (fun e => e.email == e_in.email) = none)
    (h3 : insertEmployeeRow sCommit (newEmployeeRow sCommit e_in now) = .error errE)
    (h4 : (sRead.employees.find? (fun e => e.id == a_in.employee_id)).isSome = true)
    (h5 : sRead.attendance.find?
        (fun a => a.employee_id == a_in.employee_id && a.date == a_in.date) = none)
    (h6 : insertAttendanceRow sCommit (newAttendanceRow sCommit a_in) = .error errA) :
    create_employee_raced sRead sCommit e_in now = .uncaught errE ∧
    create_attendance_raced sRead sCommit a_in = .uncaught errA := by
  constructor
  · unfold create_employee_raced
    simp [h1, h2, h3]
  · unfold create_attendance_raced
    simp [h4, h5, h6]

/-- C9 witness: both raced creates at concrete stores with lost races end
in an uncaught storage error. -/
theorem raced_constraint_violation_uncaught_witness :
    insertEmployeeRow w9Commit (newEmployeeRow w9Commit w9Req 9)
      = .error { msg := "UNIQUE constraint failed" } ∧
    create_employee_raced w9Read w9Commit w9Req 9
      = .uncaught { msg := "UNIQUE constraint failed" } ∧
    create_attendance_raced w9Read w9Commit w9AttReq
      = .uncaught { msg := "UNIQUE constraint failed" } := by
  have h := raced_constraint_violation_uncaught w9Read w9Commit w9Req 9 w9AttReq
    { msg := "UNIQUE constraint failed" } { msg := "UNIQUE constraint failed" }
    rfl rfl rfl rfl rfl rfl
  exact ⟨rfl, h.1, h.2⟩
